import Mathlib

/-!
Shallow embedding of the wallet signing core of rebel-station
(src/auth/hooks/useAuth.ts).

The hook manages one connected wallet session and dispatches signing to a
software key (decrypted through the password vault) or to a Ledger hardware
device.  External collaborators (vault keystore, chain LCD client, ledger
device) are modelled as an explicit environment of response functions, and
every operation also returns the list of collaborator calls it performed,
so that absence of a call is provable.  Fallible operations return Except.
-/

/-- Wallet descriptor held by the session.  The source builds three record
shapes: a local wallet (name, address), a multisig wallet
(name, address, multisig flag) and a ledger wallet (address, ledger flag)
with no name (useAuth.ts lines 37-39 and 49). -/
inductive Wallet
  | localW (name : String) (address : String)
  | multisigW (name : String) (address : String)
  | ledgerW (address : String)
  deriving Repr, DecidableEq

/-- The optional name field of a descriptor: present on local and multisig
wallets, absent on ledger wallets. -/
def Wallet.nameF : Wallet → Option String
  | .localW n _ => some n
  | .multisigW n _ => some n
  | .ledgerW _ => none

/-- The address field, present on every descriptor. -/
def Wallet.addressF : Wallet → String
  | .localW _ a => a
  | .multisigW _ a => a
  | .ledgerW a => a

/-- Modelled from the spec: the variant test is.ledger of auth/scripts/is.ts
(the file is not under src/) — a descriptor is the Ledger variant exactly
when it carries the ledger tag, which in the source is the record shape
with only an address. -/
def Wallet.isLedger : Wallet → Bool
  | .ledgerW _ => true
  | _ => false

/-- Modelled from the spec: the variant test is.local of auth/scripts/is.ts
(the file is not under src/).  Per the data model of the spec, name is
required unless variant is Ledger, so a descriptor counts as local exactly
when it carries a name: Local and Multisig qualify, Ledger does not. -/
def isLocalOpt : Option Wallet → Bool
  | none => false
  | some w => w.nameF.isSome

/-- Error taxonomy of the spec, mapped from the exceptions thrown in
useAuth.ts: sessionError is the thrown message about the wallet not being
defined; incorrectPassword is PasswordError; unsupportedOperation is the
ledger raw-byte refusal; deviceError is the missing ledger public key;
notFound is an unknown stored wallet name; sigUndefined is the missing
ecdsa signature; broadcastError carries the raw chain log; storageError is
a failure of the external persisted-state collaborator. -/
inductive AuthError
  | sessionError
  | incorrectPassword
  | unsupportedOperation
  | deviceError
  | notFound
  | sigUndefined
  | broadcastError (raw_log : String)
  | storageError
  deriving Repr, DecidableEq

/-- Transaction options passed to create and sign (CreateTxOptions),
opaque to this core. -/
abbrev TxOptions := String

/-- An unsigned transaction: auth info and body, opaque payloads. -/
structure Tx where
  auth_info : String
  body : String
  deriving Repr, DecidableEq

/-- The SignDoc built by createSignature (useAuth.ts lines 126-132). -/
structure SignDocL where
  chainID : String
  accountNumber : Nat
  sequence : Nat
  auth_info : String
  body : String
  deriving Repr, DecidableEq

/-- Signing modes of the underlying SDK; the source only ever selects the
legacy amino JSON mode (useAuth.ts line 153). -/
inductive SignMode
  | legacyAminoJson
  | direct
  | textual
  deriving Repr, DecidableEq

/-- The options record handed to the ledger device by sign
(useAuth.ts line 155). -/
structure SignOpts where
  chainID : String
  accountNumber : Nat
  sequence : Nat
  signMode : SignMode
  deriving Repr, DecidableEq

/-- Which key produced a signature: a ledger device key wrapping the device
public key, or a software RawKey built from the decrypted key material. -/
inductive Signer
  | ledgerKey (pub : String)
  | rawKey (keyHex : String)
  deriving Repr, DecidableEq

/-- Result of createSignatureAmino: the amino-path signature over a SignDoc,
by one of the two signer kinds. -/
structure AminoSig where
  doc : SignDocL
  signer : Signer
  deriving Repr, DecidableEq

/-- Result of sign: either a transaction signed by the ledger device with
explicit options, or by the general createAndSignTx path of the chain
client with a software key. -/
inductive SignedTxRes
  | device (unsignedTx : Tx) (opts : SignOpts) (raw : String)
  | general (keyHex : String) (txOptions : TxOptions) (raw : String)
  deriving Repr, DecidableEq

/-- Result record of signBytes (useAuth.ts lines 177-181). -/
structure SignBytesRes where
  recid : Nat
  signature : String
  public_key : Option String
  deriving Repr, DecidableEq

/-- Broadcast result; isTxError in the SDK holds when code is nonzero. -/
structure BroadcastResult where
  code : Nat
  raw_log : String
  deriving Repr, DecidableEq

/-- A stored wallet record in the vault keystore, as far as this core reads
it in connect: address plus the multisig marker.  The encrypted key stays
inside the vault collaborator. -/
structure StoredWallet where
  address : String
  multisig : Bool
  deriving Repr, DecidableEq

/-- The ciphertext produced by encrypt(key, password).  The spec states the
vault gateway owns the actual cipher, so the pass-through is modelled by
the pair of inputs; the key slot is an Option because the source passes the
result of getKey to encrypt without any check. -/
structure EncryptedBlob where
  keySource : Option String
  password : String
  deriving Repr, DecidableEq

/-- The bundle an export encodes: base64 of the JSON of this record
(useAuth.ts lines 94-95); both encodings are injective, so the record
itself stands for the encoded document. -/
structure ExportBundle where
  name : String
  address : String
  encrypted_key : EncryptedBlob
  deriving Repr, DecidableEq

/-- Outcome of validatePassword: either the value returned by testPassword,
or the generic incorrect-password message produced by the catch branch. -/
inductive ValidateOutcome
  | valid (ok : Bool)
  | incorrectPassword
  deriving Repr, DecidableEq

/-- One call to an external collaborator.  vault... are Password Vault
Gateway calls, chain... are Chain Client calls, device... are Hardware
Device Gateway calls. -/
inductive Effect
  | vaultLoad (name : String)
  | vaultStore (w : Wallet)
  | vaultClear
  | vaultDecrypt (name : String) (password : String)
  | vaultTestPassword (name : String) (password : String)
  | chainAccountInfo (address : String)
  | chainAccountNumberAndSequence
  | chainCreateTx (address : String)
  | chainCreateAndSignTx (keyHex : String)
  | chainBroadcast
  | deviceGetPubKey
  | deviceSignAmino (doc : SignDocL)
  | deviceSignTx (opts : SignOpts)
  deriving Repr, DecidableEq

/-- Is the effect a Password Vault Gateway call? -/
def Effect.isVault : Effect → Bool
  | .vaultLoad _ => true
  | .vaultStore _ => true
  | .vaultClear => true
  | .vaultDecrypt _ _ => true
  | .vaultTestPassword _ _ => true
  | _ => false

/-- Is the effect a Chain Client call? -/
def Effect.isChain : Effect → Bool
  | .chainAccountInfo _ => true
  | .chainAccountNumberAndSequence => true
  | .chainCreateTx _ => true
  | .chainCreateAndSignTx _ => true
  | .chainBroadcast => true
  | _ => false

/-- Behaviour of the external collaborators for one call each, plus the two
chain ids read by the hook (lcd.config.chainID and the useChainID hook) and
whether the external clear of the persisted reference succeeds. -/
structure Env where
  storedWallet : String → Option StoredWallet
  decryptedKey : String → String → Except AuthError (Option String)
  ledgerPubKey : Option String
  accountInfo : String → Except AuthError (Nat × Nat)
  accountNumberAndSequence : Except AuthError (Nat × Nat)
  createTx : String → TxOptions → Except AuthError Tx
  createAndSignTx : String → TxOptions → Except AuthError String
  deviceSignAmino : SignDocL → Except AuthError Unit
  deviceSignTx : Tx → SignOpts → Except AuthError String
  ecdsaSign : String → String → Option String × Nat
  pubKeyAmino : String → Option String
  broadcast : SignedTxRes → BroadcastResult
  configChainID : String
  chainID : String
  clearOk : Bool

/-- In-memory session plus the persisted current-wallet record. -/
structure St where
  session : Option Wallet
  persisted : Option Wallet
  deriving Repr, DecidableEq

/-- The falsy test the source applies to the result of getKey: the key is
missing when it is undefined or the empty string. -/
def falsyKey : Option String → Bool
  | none => true
  | some s => s = ""

/-- connect(name) (useAuth.ts lines 32-45): look the name up in the vault
keystore (NotFoundError when unknown), tag the multisig variant when the
stored record is multisig, persist the descriptor and set the session. -/
def connect (env : Env) (st : St) (name : String) :
    Except AuthError Unit × St × List Effect :=
  match env.storedWallet name with
  | none => (.error .notFound, st, [.vaultLoad name])
  | some sw =>
    let w := if sw.multisig then Wallet.multisigW name sw.address
             else Wallet.localW name sw.address
    (.ok (), ⟨some w, some w⟩, [.vaultLoad name, .vaultStore w])

/-- connectLedger(address) (useAuth.ts lines 47-54): build the ledger
descriptor, persist it and set the session.  Never fails. -/
def connectLedger (_st : St) (address : String) :
    Except AuthError Unit × St × List Effect :=
  let w := Wallet.ledgerW address
  (.ok (), ⟨some w, some w⟩, [.vaultStore w])

/-- disconnect() (useAuth.ts lines 56-59): clearWallet() runs first; only
when it returns does setWallet(undefined) run.  A throwing external clear
therefore propagates before the in-memory session is touched. -/
def disconnect (env : Env) (st : St) :
    Except AuthError Unit × St × List Effect :=
  if env.clearOk then (.ok (), ⟨none, none⟩, [.vaultClear])
  else (.error .storageError, st, [.vaultClear])

/-- The connectedWallet memo (useAuth.ts lines 62-65): the session wallet
only when is.local holds for it, otherwise undefined. -/
def connectedWallet (s : Option Wallet) : Option Wallet :=
  if isLocalOpt s then s else none

/-- getConnectedWallet (useAuth.ts lines 67-70): the connectedWallet memo,
or the session error when it is undefined. -/
def getConnectedWallet (s : Option Wallet) : Except AuthError Wallet :=
  match connectedWallet s with
  | some w => .ok w
  | none => .error .sessionError

/-- getKey(password) (useAuth.ts lines 72-75): take the name of the
connected wallet and ask the vault for the decrypted key.  The vault call
may itself fail, or yield nothing; the nameless branch is unreachable
because getConnectedWallet only returns named wallets. -/
def getKey (env : Env) (s : Option Wallet) (password : String) :
    Except AuthError (Option String) × List Effect :=
  match getConnectedWallet s with
  | .error e => (.error e, [])
  | .ok w =>
    match w.nameF with
    | some n => (env.decryptedKey n password, [.vaultDecrypt n password])
    | none => (.error .sessionError, [])

/-- getLedgerKey (useAuth.ts lines 77-88): ask the device gateway for the
public key; DeviceError when absent. -/
def getLedgerKey (env : Env) : Except AuthError String × List Effect :=
  match env.ledgerPubKey with
  | none => (.error .deviceError, [.deviceGetPubKey])
  | some pk => (.ok pk, [.deviceGetPubKey])

/-- encodeEncryptedWallet(password) (useAuth.ts lines 91-96): read name and
address from the connected wallet, fetch the decrypted key through getKey,
and bundle name, address and encrypt(key, password) into the encoded
export document.  The source applies no check to the key before
encrypting it. -/
def encodeEncryptedWallet (env : Env) (s : Option Wallet) (password : String) :
    Except AuthError ExportBundle × List Effect :=
  match getConnectedWallet s with
  | .error e => (.error e, [])
  | .ok w =>
    match w.nameF with
    | none => (.error .sessionError, [])
    | some n =>
      match getKey env s password with
      | (.error e, kfx) => (.error e, kfx)
      | (.ok key, kfx) => (.ok ⟨n, w.addressF, ⟨key, password⟩⟩, kfx)

/-- Modelled from the spec: testPassword of auth/scripts/keystore.ts (the
file is not under src/).  The Vault Gateway contract of the spec is
testPassword(name, password) to bool, and its error taxonomy files a wrong
password or failed decrypt under IncorrectPasswordError, so the test
succeeds with true exactly when the vault yields a key for the password,
fails with IncorrectPasswordError when it yields nothing, and propagates
any gateway error. -/
def testPassword (env : Env) (name : String) (password : String) :
    Except AuthError Bool :=
  match env.decryptedKey name password with
  | .error e => .error e
  | .ok none => .error .incorrectPassword
  | .ok (some _) => .ok true

/-- validatePassword(password) (useAuth.ts lines 99-106): run testPassword
on the connected wallet name inside a try block; any thrown error — no
session, wrong password, gateway failure — is caught and replaced by the
one generic incorrect-password message. -/
def validatePassword (env : Env) (s : Option Wallet) (password : String) :
    ValidateOutcome × List Effect :=
  match getConnectedWallet s with
  | .error _ => (.incorrectPassword, [])
  | .ok w =>
    match w.nameF with
    | none => (.incorrectPassword, [])
    | some n =>
      match testPassword env n password with
      | .error _ => (.incorrectPassword, [.vaultTestPassword n password])
      | .ok b => (.valid b, [.vaultTestPassword n password])

/-- create(txOptions) (useAuth.ts lines 111-115): session check on the raw
session (any variant), then ask the chain client for an unsigned tx for
the session address. -/
def create (env : Env) (s : Option Wallet) (txOptions : TxOptions) :
    Except AuthError Tx × List Effect :=
  match s with
  | none => (.error .sessionError, [])
  | some w =>
    match env.createTx w.addressF txOptions with
    | .error e => (.error e, [.chainCreateTx w.addressF])
    | .ok tx => (.ok tx, [.chainCreateTx w.addressF])

/-- createSignature(tx, address, password) (useAuth.ts lines 117-143):
session check, fetch accountInfo(address) from the chain client, build the
SignDoc from lcd.config.chainID and the fetched account number and
sequence, then branch on variant: ledger obtains the device key and signs
the doc through createSignatureAmino on the device; otherwise getKey,
PasswordError on a falsy key, and createSignatureAmino with the RawKey. -/
def createSignature (env : Env) (s : Option Wallet) (tx : Tx)
    (address : String) (password : String) :
    Except AuthError AminoSig × List Effect :=
  match s with
  | none => (.error .sessionError, [])
  | some w =>
    match env.accountInfo address with
    | .error e => (.error e, [.chainAccountInfo address])
    | .ok (an, seq) =>
      let doc : SignDocL := ⟨env.configChainID, an, seq, tx.auth_info, tx.body⟩
      if w.isLedger then
        match env.ledgerPubKey with
        | none => (.error .deviceError, [.chainAccountInfo address, .deviceGetPubKey])
        | some pk =>
          match env.deviceSignAmino doc with
          | .error e =>
            (.error e,
             [.chainAccountInfo address, .deviceGetPubKey, .deviceSignAmino doc])
          | .ok _ =>
            (.ok ⟨doc, .ledgerKey pk⟩,
             [.chainAccountInfo address, .deviceGetPubKey, .deviceSignAmino doc])
      else
        match getKey env s password with
        | (.error e, kfx) => (.error e, [.chainAccountInfo address] ++ kfx)
        | (.ok key, kfx) =>
          if falsyKey key then
            (.error .incorrectPassword, [.chainAccountInfo address] ++ kfx)
          else
            (.ok ⟨doc, .rawKey (key.getD "")⟩, [.chainAccountInfo address] ++ kfx)

/-- sign(txOptions, password) (useAuth.ts lines 145-164): session check,
then ledger path — device key, fresh accountNumberAndSequence from the
chain client, the legacy amino JSON sign mode, unsigned tx through create,
device signTx with those options — or local path — getKey, PasswordError
on a falsy key, then the general createAndSignTx convenience operation of
the chain client. -/
def sign (env : Env) (s : Option Wallet) (txOptions : TxOptions)
    (password : String) : Except AuthError SignedTxRes × List Effect :=
  match s with
  | none => (.error .sessionError, [])
  | some w =>
    if w.isLedger then
      match env.ledgerPubKey with
      | none => (.error .deviceError, [.deviceGetPubKey])
      | some _pk =>
        match env.accountNumberAndSequence with
        | .error e => (.error e, [.deviceGetPubKey, .chainAccountNumberAndSequence])
        | .ok (an, seq) =>
          match create env s txOptions with
          | (.error e, cfx) =>
            (.error e, [.deviceGetPubKey, .chainAccountNumberAndSequence] ++ cfx)
          | (.ok utx, cfx) =>
            let opts : SignOpts := ⟨env.chainID, an, seq, .legacyAminoJson⟩
            match env.deviceSignTx utx opts with
            | .error e =>
              (.error e,
               [.deviceGetPubKey, .chainAccountNumberAndSequence] ++ cfx
                 ++ [.deviceSignTx opts])
            | .ok raw =>
              (.ok (.device utx opts raw),
               [.deviceGetPubKey, .chainAccountNumberAndSequence] ++ cfx
                 ++ [.deviceSignTx opts])
    else
      match getKey env s password with
      | (.error e, kfx) => (.error e, kfx)
      | (.ok key, kfx) =>
        if falsyKey key then (.error .incorrectPassword, kfx)
        else
          let k := key.getD ""
          match env.createAndSignTx k txOptions with
          | .error e => (.error e, kfx ++ [.chainCreateAndSignTx k])
          | .ok raw => (.ok (.general k txOptions raw), kfx ++ [.chainCreateAndSignTx k])

/-- signBytes(bytes, password) (useAuth.ts lines 166-183): session check;
the ledger variant is refused outright, before any collaborator call;
otherwise getKey, PasswordError on a falsy key, direct ecdsa sign over the
bytes, internal invariant failure when the signature is absent, and the
fixed result encoding (the base64 step is injective and left as the raw
signature bytes). -/
def signBytes (env : Env) (s : Option Wallet) (bytes : String)
    (password : String) : Except AuthError SignBytesRes × List Effect :=
  match s with
  | none => (.error .sessionError, [])
  | some w =>
    if w.isLedger then (.error .unsupportedOperation, [])
    else
      match getKey env s password with
      | (.error e, kfx) => (.error e, kfx)
      | (.ok key, kfx) =>
        if falsyKey key then (.error .incorrectPassword, kfx)
        else
          let k := key.getD ""
          match env.ecdsaSign k bytes with
          | (none, _) => (.error .sigUndefined, kfx)
          | (some sigv, recid) => (.ok ⟨recid, sigv, env.pubKeyAmino k⟩, kfx)

/-- post(txOptions, password) (useAuth.ts lines 185-191): session check,
sign, broadcastSync; a nonzero result code is a BroadcastError carrying
the raw log, otherwise the broadcast result is returned. -/
def post (env : Env) (s : Option Wallet) (txOptions : TxOptions)
    (password : String) : Except AuthError BroadcastResult × List Effect :=
  match s with
  | none => (.error .sessionError, [])
  | some _ =>
    match sign env s txOptions password with
    | (.error e, fx) => (.error e, fx)
    | (.ok st, fx) =>
      let r := env.broadcast st
      if r.code ≠ 0 then (.error (.broadcastError r.raw_log), fx ++ [.chainBroadcast])
      else (.ok r, fx ++ [.chainBroadcast])


/-- The sign mode in a sign result, when the device path produced it. -/
def SignedTxRes.signModeUsed : SignedTxRes → Option SignMode
  | .device _ o _ => some o.signMode
  | .general _ _ _ => none

/-- Did the sign result come from the general createAndSignTx path? -/
def SignedTxRes.isGeneral : SignedTxRes → Bool
  | .general _ _ _ => true
  | .device _ _ _ => false

/-- Did the signature come from the ledger device key? -/
def Signer.isLedgerKey : Signer → Bool
  | .ledgerKey _ => true
  | .rawKey _ => false

/-- Every device signTx call in the effect, if any, carries the legacy
amino JSON sign mode. -/
def Effect.aminoModeOnly : Effect → Bool
  | .deviceSignTx o => o.signMode == .legacyAminoJson
  | _ => true

/-- A concrete collaborator behaviour used by the closed witness and
counterexample statements: one stored local wallet named alice, a vault
that always decrypts, a live ledger device, and a chain client that
answers every call. -/
def defaultEnv : Env where
  storedWallet := fun n => if n = "alice" then some ⟨"addr1", false⟩ else none
  decryptedKey := fun _ _ => .ok (some "aabb")
  ledgerPubKey := some "pubk"
  accountInfo := fun _ => .ok (7, 3)
  accountNumberAndSequence := .ok (9, 4)
  createTx := fun _ _ => .ok ⟨"auth0", "body0"⟩
  createAndSignTx := fun _ _ => .ok "signedGeneral"
  deviceSignAmino := fun _ => .ok ()
  deviceSignTx := fun _ _ => .ok "signedDevice"
  ecdsaSign := fun _ _ => (some "sigraw", 1)
  pubKeyAmino := fun k => some k
  broadcast := fun _ => ⟨0, ""⟩
  configChainID := "columbus-5"
  chainID := "rebel-2"
  clearOk := true

/-- defaultEnv, except the vault yields no key for any password without
throwing — the decrypt outcome the source guards with the falsy check. -/
def envNoKey : Env := { defaultEnv with decryptedKey := fun _ _ => .ok none }

/-- defaultEnv, except the external clear of the persisted reference
throws. -/
def envNoClear : Env := { defaultEnv with clearOk := false }

/-- Branch-reduced form of sign on a Ledger session: the device key is
fetched, account number and sequence are fetched fresh, the sign mode is
fixed to legacy amino JSON, the unsigned tx is created for the session
address and the device signs it with exactly those options. -/
theorem sign_ledger_eq (env : Env) (aL : String) (txo : TxOptions)
    (password : String) :
    sign env (some (Wallet.ledgerW aL)) txo password =
      match env.ledgerPubKey with
      | none => (.error .deviceError, [.deviceGetPubKey])
      | some _ =>
        match env.accountNumberAndSequence with
        | .error e => (.error e, [.deviceGetPubKey, .chainAccountNumberAndSequence])
        | .ok (an, seq) =>
          match env.createTx aL txo with
          | .error e =>
            (.error e,
             [.deviceGetPubKey, .chainAccountNumberAndSequence, .chainCreateTx aL])
          | .ok utx =>
            match env.deviceSignTx utx ⟨env.chainID, an, seq, .legacyAminoJson⟩ with
            | .error e =>
              (.error e,
               [.deviceGetPubKey, .chainAccountNumberAndSequence, .chainCreateTx aL,
                .deviceSignTx ⟨env.chainID, an, seq, .legacyAminoJson⟩])
            | .ok raw =>
              (.ok (.device utx ⟨env.chainID, an, seq, .legacyAminoJson⟩ raw),
               [.deviceGetPubKey, .chainAccountNumberAndSequence, .chainCreateTx aL,
                .deviceSignTx ⟨env.chainID, an, seq, .legacyAminoJson⟩]) := by
  simp only [sign, create, Wallet.isLedger, Wallet.addressF, if_true]
  cases env.ledgerPubKey with
  | none => rfl
  | some pk =>
    cases env.accountNumberAndSequence with
    | error e => rfl
    | ok p =>
      obtain ⟨an, seq⟩ := p
      cases env.createTx aL txo with
      | error e => rfl
      | ok utx =>
        cases env.deviceSignTx utx ⟨env.chainID, an, seq, .legacyAminoJson⟩ with
        | error e => rfl
        | ok raw => rfl

/-- Branch-reduced form of sign on a Local session: getKey decrypts
through the vault, a falsy key fails with the password error before any
chain call, and a present key goes to the general createAndSignTx path. -/
theorem sign_local_eq (env : Env) (n a : String) (txo : TxOptions)
    (password : String) :
    sign env (some (Wallet.localW n a)) txo password =
      match env.decryptedKey n password with
      | .error e => (.error e, [.vaultDecrypt n password])
      | .ok key =>
        if falsyKey key then
          (.error .incorrectPassword, [.vaultDecrypt n password])
        else
          match env.createAndSignTx (key.getD "") txo with
          | .error e =>
            (.error e, [.vaultDecrypt n password, .chainCreateAndSignTx (key.getD "")])
          | .ok raw =>
            (.ok (.general (key.getD "") txo raw),
             [.vaultDecrypt n password, .chainCreateAndSignTx (key.getD "")]) := by
  simp only [sign, getKey, getConnectedWallet, connectedWallet, isLocalOpt,
    Wallet.nameF, Wallet.isLedger, Option.isSome, if_true, Bool.false_eq_true,
    if_false]
  cases env.decryptedKey n password with
  | error e => rfl
  | ok key =>
    cases hf : falsyKey key with
    | true => simp [hf]
    | false =>
      cases env.createAndSignTx (key.getD "") txo with
      | error e => simp [hf]
      | ok raw => simp [hf]

/-- C1 counterexample: with a Ledger wallet connected the session is
nonempty, and yet getConnectedWallet fails with the session error — so it
does not fail only when no wallet is connected. -/
theorem getConnectedWallet_ledger_counterexample :
    (some (Wallet.ledgerW "addr2")).isSome = true ∧
    getConnectedWallet (some (Wallet.ledgerW "addr2")) = .error .sessionError :=
  ⟨rfl, rfl⟩

/-- C1 (amended): getConnectedWallet returns the current descriptor for
Local and Multisig sessions; for a Ledger session, and when no wallet is
connected, it fails with the session error. -/
theorem getConnectedWallet_by_variant (s : Option Wallet) :
    getConnectedWallet s =
      match s with
      | some (.localW n a) => .ok (.localW n a)
      | some (.multisigW n a) => .ok (.multisigW n a)
      | some (.ledgerW _) => .error .sessionError
      | none => .error .sessionError := by
  cases s with
  | none => rfl
  | some w => cases w <;> rfl

/-- C2 (code bug): with a connected Local wallet and a vault that yields no
key for the password without throwing — the decrypt outcome the source
itself guards against in sign, signBytes and createSignature —
encodeEncryptedWallet does not fail with the password error: it returns an
export bundle whose encrypted key was produced from an absent decrypted
key. -/
theorem encodeEncryptedWallet_absent_key_bug :
    (encodeEncryptedWallet envNoKey (some (Wallet.localW "alice" "addr1")) "pw").1
      = .ok ⟨"alice", "addr1", ⟨none, "pw"⟩⟩ := rfl

/-- C3 counterexample: when the external clear fails, disconnect leaves the
previously connected wallet in the in-memory session and propagates the
error, refuting the unconditional in-memory clear. -/
theorem disconnect_clear_failure_counterexample :
    ((disconnect envNoClear
        ⟨some (Wallet.localW "alice" "addr1"), some (Wallet.localW "alice" "addr1")⟩).2.1).session
      = some (Wallet.localW "alice" "addr1") ∧
    (disconnect envNoClear
        ⟨some (Wallet.localW "alice" "addr1"), some (Wallet.localW "alice" "addr1")⟩).1
      = .error .storageError :=
  ⟨rfl, rfl⟩

/-- C3 (amended): disconnect clears the in-memory session exactly when the
external clear of the persisted reference succeeds; when the external
clear throws, the error propagates first and the in-memory session keeps
its previous value. -/
theorem disconnect_session_iff_clear (env : Env) (st : St) :
    ((disconnect env st).2.1).session
        = (if env.clearOk then none else st.session) ∧
    (disconnect env st).1
        = (if env.clearOk then .ok () else .error .storageError) := by
  cases h : env.clearOk <;> simp [disconnect, h]

/-- C4: after connectLedger(address), signBytes on the resulting session
fails with UnsupportedOperation for every byte string and password, and
performs no collaborator call at all — in particular no Vault Gateway
call, so no key decryption is attempted. -/
theorem signBytes_after_connectLedger (env : Env) (st : St)
    (address bytes password : String) :
    signBytes env ((connectLedger st address).2.1).session bytes password
      = (.error .unsupportedOperation, []) := rfl

/-- C5: for a connected Local wallet, when the vault yields no key for the
password — whether as an absent key or as the incorrect-password failure —
sign fails with IncorrectPasswordError and the only collaborator call in
the trace is the vault decrypt itself: no Chain Client call, no account
lookup, no broadcast, no other side effect. -/
theorem sign_wrong_password_fail_fast (env : Env)
    (n a txo password : String)
    (h : env.decryptedKey n password = .ok none ∨
         env.decryptedKey n password = .error .incorrectPassword) :
    sign env (some (Wallet.localW n a)) txo password
      = (.error .incorrectPassword, [.vaultDecrypt n password]) := by
  rcases h with h | h
  · rw [sign_local_eq, h]; rfl
  · rw [sign_local_eq, h]

/-- C5 witness: the concrete no-key vault behaviour on wallet alice. -/
theorem sign_wrong_password_fail_fast_witness :
    sign envNoKey (some (Wallet.localW "alice" "addr1")) "txo" "pw"
      = (.error .incorrectPassword, [.vaultDecrypt "alice" "pw"]) :=
  sign_wrong_password_fail_fast envNoKey "alice" "addr1" "txo" "pw" (Or.inl rfl)

/-- C6: from any prior state — whatever wallet, if any, was connected — and
any environment whose external clear succeeds, disconnect empties the
session, and afterwards each of create, createSignature, sign, signBytes
and post fails with the session error for all arguments, performing no
collaborator call. -/
theorem all_ops_fail_after_disconnect (env : Env) (st : St)
    (hclear : env.clearOk = true)
    (txo addr bytes password : String) (tx : Tx) :
    ((disconnect env st).2.1).session = none ∧
    create env ((disconnect env st).2.1).session txo
      = (.error .sessionError, []) ∧
    createSignature env ((disconnect env st).2.1).session tx addr password
      = (.error .sessionError, []) ∧
    sign env ((disconnect env st).2.1).session txo password
      = (.error .sessionError, []) ∧
    signBytes env ((disconnect env st).2.1).session bytes password
      = (.error .sessionError, []) ∧
    post env ((disconnect env st).2.1).session txo password
      = (.error .sessionError, []) := by
  have hs : ((disconnect env st).2.1).session = none := by
    simp [disconnect, hclear]
  refine ⟨hs, ?_, ?_, ?_, ?_, ?_⟩ <;> (rw [hs]; rfl)

/-- C6 witness: a previously connected local wallet, concrete arguments. -/
theorem all_ops_fail_after_disconnect_witness :
    ((disconnect defaultEnv ⟨some (Wallet.localW "alice" "addr1"), none⟩).2.1).session = none ∧
    create defaultEnv
        ((disconnect defaultEnv ⟨some (Wallet.localW "alice" "addr1"), none⟩).2.1).session "txo"
      = (.error .sessionError, []) ∧
    createSignature defaultEnv
        ((disconnect defaultEnv ⟨some (Wallet.localW "alice" "addr1"), none⟩).2.1).session
        ⟨"ai", "bd"⟩ "addr1" "pw"
      = (.error .sessionError, []) ∧
    sign defaultEnv
        ((disconnect defaultEnv ⟨some (Wallet.localW "alice" "addr1"), none⟩).2.1).session "txo" "pw"
      = (.error .sessionError, []) ∧
    signBytes defaultEnv
        ((disconnect defaultEnv ⟨some (Wallet.localW "alice" "addr1"), none⟩).2.1).session "bytes" "pw"
      = (.error .sessionError, []) ∧
    post defaultEnv
        ((disconnect defaultEnv ⟨some (Wallet.localW "alice" "addr1"), none⟩).2.1).session "txo" "pw"
      = (.error .sessionError, []) :=
  all_ops_fail_after_disconnect defaultEnv
    ⟨some (Wallet.localW "alice" "addr1"), none⟩ rfl "txo" "addr1" "bytes" "pw"
    ⟨"ai", "bd"⟩

/-- C7: validatePassword is total — its type has no error outcome, matching
the catch-all in the source — and all three failure causes (no connected
session, a password the vault cannot decrypt, a vault gateway error)
collapse into the one generic incorrect-password outcome; only a
successful test returns the testPassword value. -/
theorem validatePassword_collapses_failures (env : Env) (s : Option Wallet)
    (password : String) :
    (validatePassword env s password).1 =
      match connectedWallet s with
      | none => .incorrectPassword
      | some w =>
        match w.nameF with
        | none => .incorrectPassword
        | some n =>
          match env.decryptedKey n password with
          | .ok (some _) => .valid true
          | .ok none => .incorrectPassword
          | .error _ => .incorrectPassword := by
  simp only [validatePassword, getConnectedWallet, testPassword]
  cases hc : connectedWallet s with
  | none => rfl
  | some w =>
    cases hn : w.nameF with
    | none => simp [hn]
    | some n =>
      cases hk : env.decryptedKey n password with
      | error e => simp [hn, hk]
      | ok ko => cases ko <;> simp [hn, hk]

/-- Branch-reduced form of createSignature on a Ledger session: fresh
accountInfo fetch, SignDoc from lcd.config.chainID and the fetched values,
device key, device amino signing of that document. -/
theorem createSignature_ledger_eq (env : Env) (aL : String) (tx : Tx)
    (addr password : String) :
    createSignature env (some (Wallet.ledgerW aL)) tx addr password =
      match env.accountInfo addr with
      | .error e => (.error e, [.chainAccountInfo addr])
      | .ok (an, seq) =>
        match env.ledgerPubKey with
        | none => (.error .deviceError, [.chainAccountInfo addr, .deviceGetPubKey])
        | some pk =>
          match env.deviceSignAmino ⟨env.configChainID, an, seq, tx.auth_info, tx.body⟩ with
          | .error e =>
            (.error e,
             [.chainAccountInfo addr, .deviceGetPubKey,
              .deviceSignAmino ⟨env.configChainID, an, seq, tx.auth_info, tx.body⟩])
          | .ok _ =>
            (.ok ⟨⟨env.configChainID, an, seq, tx.auth_info, tx.body⟩, .ledgerKey pk⟩,
             [.chainAccountInfo addr, .deviceGetPubKey,
              .deviceSignAmino ⟨env.configChainID, an, seq, tx.auth_info, tx.body⟩]) := by
  simp only [createSignature, Wallet.isLedger, if_true]

/-- Branch-reduced form of createSignature on a named (Local or Multisig)
session: fresh accountInfo fetch, SignDoc from those values, getKey with
the falsy-key guard, amino signature by the software RawKey. -/
theorem createSignature_named_eq (env : Env) (w : Wallet) (n : String)
    (hn : w.nameF = some n) (hl : w.isLedger = false) (tx : Tx)
    (addr password : String) :
    createSignature env (some w) tx addr password =
      match env.accountInfo addr with
      | .error e => (.error e, [.chainAccountInfo addr])
      | .ok (an, seq) =>
        match env.decryptedKey n password with
        | .error e => (.error e, [.chainAccountInfo addr, .vaultDecrypt n password])
        | .ok key =>
          if falsyKey key then
            (.error .incorrectPassword, [.chainAccountInfo addr, .vaultDecrypt n password])
          else
            (.ok ⟨⟨env.configChainID, an, seq, tx.auth_info, tx.body⟩, .rawKey (key.getD "")⟩,
             [.chainAccountInfo addr, .vaultDecrypt n password]) := by
  cases ha : env.accountInfo addr with
  | error e => simp [createSignature, ha]
  | ok p =>
    obtain ⟨an, seq⟩ := p
    cases hk : env.decryptedKey n password with
    | error e =>
      simp [createSignature, getKey, getConnectedWallet, connectedWallet,
        isLocalOpt, hn, hl, ha, hk]
    | ok key =>
      cases hf : falsyKey key with
      | true =>
        simp [createSignature, getKey, getConnectedWallet, connectedWallet,
          isLocalOpt, hn, hl, ha, hk, hf]
      | false =>
        simp [createSignature, getKey, getConnectedWallet, connectedWallet,
          isLocalOpt, hn, hl, ha, hk, hf]

/-- C10: connect on a stored name and connectLedger succeed from every
prior state — whether or not a wallet is already connected, with no prior
disconnect — and unconditionally overwrite both the persisted record and
the in-memory session with the new descriptor: last connect wins. -/
theorem connect_overwrites (env : Env) (st : St) (name addr : String)
    (sw : StoredWallet) (hstored : env.storedWallet name = some sw) :
    (connect env st name).1 = .ok () ∧
    (connect env st name).2.1 =
      ⟨some (if sw.multisig then Wallet.multisigW name sw.address
             else Wallet.localW name sw.address),
       some (if sw.multisig then Wallet.multisigW name sw.address
             else Wallet.localW name sw.address)⟩ ∧
    (connectLedger st addr).1 = .ok () ∧
    (connectLedger st addr).2.1 =
      ⟨some (Wallet.ledgerW addr), some (Wallet.ledgerW addr)⟩ := by
  refine ⟨?_, ?_, rfl, rfl⟩ <;> simp [connect, hstored]

/-- C10 witness: with a ledger wallet already connected and no disconnect,
connect and connectLedger both succeed and overwrite the whole state. -/
theorem connect_overwrites_witness :
    (connect defaultEnv ⟨some (Wallet.ledgerW "addr2"), none⟩ "alice").1 = .ok () ∧
    (connect defaultEnv ⟨some (Wallet.ledgerW "addr2"), none⟩ "alice").2.1 =
      ⟨some (Wallet.localW "alice" "addr1"), some (Wallet.localW "alice" "addr1")⟩ ∧
    (connectLedger ⟨some (Wallet.ledgerW "addr2"), none⟩ "addr3").1 = .ok () ∧
    (connectLedger ⟨some (Wallet.ledgerW "addr2"), none⟩ "addr3").2.1 =
      ⟨some (Wallet.ledgerW "addr3"), some (Wallet.ledgerW "addr3")⟩ := by
  simpa using connect_overwrites defaultEnv ⟨some (Wallet.ledgerW "addr2"), none⟩
    "alice" "addr3" ⟨"addr1", false⟩ rfl

/-- C8: with responsive collaborators, signing on a Ledger session is fixed
to the legacy amino mode: sign drives the device with the legacy amino
JSON sign mode in its options and returns the device-signed transaction,
and createSignature signs its document through the device amino path with
the ledger key; a Local session instead delegates sign to the general
createAndSignTx path of the chain client, with no device call in its
trace. -/
theorem signing_path_by_variant (env : Env)
    (aL n a addr txo password pk key : String) (tx utx : Tx)
    (rawD rawG : String) (an seq an2 seq2 : Nat)
    (hpk : env.ledgerPubKey = some pk)
    (h2 : env.accountNumberAndSequence = .ok (an2, seq2))
    (hct : env.createTx aL txo = .ok utx)
    (hdt : env.deviceSignTx utx ⟨env.chainID, an2, seq2, .legacyAminoJson⟩ = .ok rawD)
    (h1 : env.accountInfo addr = .ok (an, seq))
    (hda : env.deviceSignAmino ⟨env.configChainID, an, seq, tx.auth_info, tx.body⟩ = .ok ())
    (hk : env.decryptedKey n password = .ok (some key))
    (hk0 : falsyKey (some key) = false)
    (hcs : env.createAndSignTx key txo = .ok rawG) :
    sign env (some (Wallet.ledgerW aL)) txo password
      = (.ok (.device utx ⟨env.chainID, an2, seq2, .legacyAminoJson⟩ rawD),
         [.deviceGetPubKey, .chainAccountNumberAndSequence, .chainCreateTx aL,
          .deviceSignTx ⟨env.chainID, an2, seq2, .legacyAminoJson⟩]) ∧
    createSignature env (some (Wallet.ledgerW aL)) tx addr password
      = (.ok ⟨⟨env.configChainID, an, seq, tx.auth_info, tx.body⟩, .ledgerKey pk⟩,
         [.chainAccountInfo addr, .deviceGetPubKey,
          .deviceSignAmino ⟨env.configChainID, an, seq, tx.auth_info, tx.body⟩]) ∧
    sign env (some (Wallet.localW n a)) txo password
      = (.ok (.general key txo rawG),
         [.vaultDecrypt n password, .chainCreateAndSignTx key]) := by
  refine ⟨?_, ?_, ?_⟩
  · simp [sign_ledger_eq, hpk, h2, hct, hdt]
  · simp [createSignature_ledger_eq, h1, hpk, hda]
  · simp [sign_local_eq, hk, hk0, hcs]

/-- C8 witness: both variants evaluated in the concrete default
environment. -/
theorem signing_path_by_variant_witness :
    sign defaultEnv (some (Wallet.ledgerW "addr2")) "txo" "pw"
      = (.ok (.device ⟨"auth0", "body0"⟩
            ⟨defaultEnv.chainID, 9, 4, .legacyAminoJson⟩ "signedDevice"),
         [.deviceGetPubKey, .chainAccountNumberAndSequence, .chainCreateTx "addr2",
          .deviceSignTx ⟨defaultEnv.chainID, 9, 4, .legacyAminoJson⟩]) ∧
    createSignature defaultEnv (some (Wallet.ledgerW "addr2")) ⟨"ai", "bd"⟩ "addr1" "pw"
      = (.ok ⟨⟨defaultEnv.configChainID, 7, 3, "ai", "bd"⟩, .ledgerKey "pubk"⟩,
         [.chainAccountInfo "addr1", .deviceGetPubKey,
          .deviceSignAmino ⟨defaultEnv.configChainID, 7, 3, "ai", "bd"⟩]) ∧
    sign defaultEnv (some (Wallet.localW "alice" "addr1")) "txo" "pw"
      = (.ok (.general "aabb" "txo" "signedGeneral"),
         [.vaultDecrypt "alice" "pw", .chainCreateAndSignTx "aabb"]) :=
  signing_path_by_variant defaultEnv "addr2" "alice" "addr1" "addr1" "txo" "pw"
    "pubk" "aabb" ⟨"ai", "bd"⟩ ⟨"auth0", "body0"⟩ "signedDevice" "signedGeneral"
    7 3 9 4 rfl rfl rfl rfl rfl rfl rfl (by decide) rfl

/-- C9: every signing attempt that builds a signing document fetches the
account number and sequence from the Chain Client within that very call
and places exactly the fetched values in the document: createSignature —
on a named wallet and on a Ledger wallet — builds its SignDoc from the
pair accountInfo returned to this very call, with the fetch in its trace,
and the Ledger path of sign hands the device exactly the pair
accountNumberAndSequence returned to this very call, with the fetch in
its trace.  The operations read only the per-call environment, so no
value is cached or reused across calls. -/
theorem fresh_account_values (env : Env) (w : Wallet) (nw : String)
    (hn : w.nameF = some nw) (hl : w.isLedger = false)
    (tx utx : Tx) (addr aL txo password pk key rawD : String)
    (an seq an2 seq2 : Nat)
    (h1 : env.accountInfo addr = .ok (an, seq))
    (h2 : env.accountNumberAndSequence = .ok (an2, seq2))
    (hk : env.decryptedKey nw password = .ok (some key))
    (hk0 : falsyKey (some key) = false)
    (hpk : env.ledgerPubKey = some pk)
    (hda : env.deviceSignAmino ⟨env.configChainID, an, seq, tx.auth_info, tx.body⟩ = .ok ())
    (hct : env.createTx aL txo = .ok utx)
    (hdt : env.deviceSignTx utx ⟨env.chainID, an2, seq2, .legacyAminoJson⟩ = .ok rawD) :
    createSignature env (some w) tx addr password
      = (.ok ⟨⟨env.configChainID, an, seq, tx.auth_info, tx.body⟩, .rawKey key⟩,
         [.chainAccountInfo addr, .vaultDecrypt nw password]) ∧
    createSignature env (some (Wallet.ledgerW aL)) tx addr password
      = (.ok ⟨⟨env.configChainID, an, seq, tx.auth_info, tx.body⟩, .ledgerKey pk⟩,
         [.chainAccountInfo addr, .deviceGetPubKey,
          .deviceSignAmino ⟨env.configChainID, an, seq, tx.auth_info, tx.body⟩]) ∧
    sign env (some (Wallet.ledgerW aL)) txo password
      = (.ok (.device utx ⟨env.chainID, an2, seq2, .legacyAminoJson⟩ rawD),
         [.deviceGetPubKey, .chainAccountNumberAndSequence, .chainCreateTx aL,
          .deviceSignTx ⟨env.chainID, an2, seq2, .legacyAminoJson⟩]) := by
  refine ⟨?_, ?_, ?_⟩
  · rw [createSignature_named_eq env w nw hn hl tx addr password]
    simp [h1, hk, hk0]
  · simp [createSignature_ledger_eq, h1, hpk, hda]
  · simp [sign_ledger_eq, hpk, h2, hct, hdt]

/-- C9 witness: the freshly fetched account number and sequence of the
default environment appear in the produced documents of all three
paths. -/
theorem fresh_account_values_witness :
    createSignature defaultEnv (some (Wallet.localW "alice" "addr1")) ⟨"ai", "bd"⟩ "addr1" "pw"
      = (.ok ⟨⟨defaultEnv.configChainID, 7, 3, "ai", "bd"⟩, .rawKey "aabb"⟩,
         [.chainAccountInfo "addr1", .vaultDecrypt "alice" "pw"]) ∧
    createSignature defaultEnv (some (Wallet.ledgerW "addr2")) ⟨"ai", "bd"⟩ "addr1" "pw"
      = (.ok ⟨⟨defaultEnv.configChainID, 7, 3, "ai", "bd"⟩, .ledgerKey "pubk"⟩,
         [.chainAccountInfo "addr1", .deviceGetPubKey,
          .deviceSignAmino ⟨defaultEnv.configChainID, 7, 3, "ai", "bd"⟩]) ∧
    sign defaultEnv (some (Wallet.ledgerW "addr2")) "txo" "pw"
      = (.ok (.device ⟨"auth0", "body0"⟩
            ⟨defaultEnv.chainID, 9, 4, .legacyAminoJson⟩ "signedDevice"),
         [.deviceGetPubKey, .chainAccountNumberAndSequence, .chainCreateTx "addr2",
          .deviceSignTx ⟨defaultEnv.chainID, 9, 4, .legacyAminoJson⟩]) :=
  fresh_account_values defaultEnv (Wallet.localW "alice" "addr1") "alice" rfl rfl
    ⟨"ai", "bd"⟩ ⟨"auth0", "body0"⟩ "addr1" "addr2" "txo" "pw" "pubk" "aabb"
    "signedDevice" 7 3 9 4 rfl rfl rfl (by decide) rfl rfl rfl rfl
